import Mathlib

/-!
# Verification of the starlark-rust value-representation core

A shallow embedding of `src/starlark/src/values/layout/typed/mod.rs`
(typed value wrappers over tagged values) and
`src/starlark/src/values/types/bigint/convert.rs`
(promotion of native `i64`/`u64` integers to runtime values).

Machine words are modelled as `Nat`/`Int` with explicit ranges; the two
heaps are lists of payloads addressed by index; a tagged word encodes
either an immediate 32-bit integer or a pointer with a string tag bit.
Parts of the repository that `src/` does not contain (the pointer
tagging scheme, `downcast_ref`, `StarlarkStr` comparison, the tracer)
are modelled from the specification and are marked as such.
-/

namespace Starlark

/-- Byte strings: the content of a `StarlarkStr` payload, as a list of bytes. -/
abbrev ByteStr := List Nat

/-- Modelled from the spec: process-wide stable type identity
(`static_type_id`); immediate integers (`PointerI32`) are their own
pseudo-type, strings and big integers are concrete payload types, and
every other payload type gets a numbered identity. -/
inductive TypeId where
  | intTy : TypeId
  | strTy : TypeId
  | bigIntTy : TypeId
  | otherTy : Nat → TypeId
deriving DecidableEq, Repr

/-- A heap payload: a string object, a big-integer object
(`StarlarkBigInt`), or some other object identified by its type number. -/
inductive Payload where
  | str : ByteStr → Payload
  | bigInt : Int → Payload
  | other : Nat → Nat → Payload
deriving DecidableEq, Repr

/-- Modelled from the spec: the allocation header records the payload's
concrete type identity; here it is recovered from the payload itself. -/
def Payload.typeId : Payload → TypeId
  | .str _ => .strTy
  | .bigInt _ => .bigIntTy
  | .other n _ => .otherTy n

/-- A heap (mutable or frozen): a list of allocated payloads, addressed
by index; allocation appends at the end. -/
abbrev Store := List Payload

/-- A tagged value handle (`Value` / the bits of `FrozenValue`): either
an immediate 32-bit integer or a pointer carrying the string tag bit. -/
inductive Value where
  | int : Int → Value
  | ptr : Nat → Bool → Value
deriving DecidableEq, Repr

/-- The immediate range: signed values representable in 32 bits
(`i32::MIN ..= i32::MAX`). -/
def fitsI32 (i : Int) : Prop := -(2 ^ 31) ≤ i ∧ i < 2 ^ 31

instance (i : Int) : Decidable (fitsI32 i) := by
  unfold fitsI32; infer_instance

/-- Modelled from the spec: the word (machine-word bit pattern) of a
tagged value.  An immediate integer stores its 32-bit two's-complement
pattern above an integer tag bit; a pointer stores an 8-byte-aligned
object address with the string tag bit set iff the payload is a string. -/
def Value.word : Value → Nat
  | .int i => 4 * (i % 2 ^ 32).toNat + 1
  | .ptr addr isStr => 8 * addr + (if isStr then 2 else 0)

/-- Modelled from the spec: recover the signed immediate integer from a
tagged word (`unpack_int_unchecked`); precondition: the integer tag is set. -/
def unpack_int_unchecked (w : Nat) : Int :=
  let u : Nat := w / 4
  if u < 2 ^ 31 then (u : Int) else (u : Int) - 2 ^ 32

/-- Modelled from the spec: untag a non-integer pointer word
(`unpack_ptr_no_int_unchecked().payload_ptr()`): mask off the low tag
bits to recover the aligned payload address. -/
def unpack_ptr_no_int_unchecked (w : Nat) : Nat := w - w % 8

/-- Modelled from the spec: untag a pointer word known to be neither
integer nor string (`unpack_ptr_no_int_no_str_unchecked().payload_ptr()`):
no tag bits are set, so no masking is performed at all. -/
def unpack_ptr_no_int_no_str_unchecked (w : Nat) : Nat := w

/-- Look up the payload stored at an aligned payload address; `none`
models the undefined behaviour of dereferencing a bad address. -/
def Store.payloadAt (st : Store) (p : Nat) : Option Payload :=
  if p % 8 = 0 then st.get? (p / 8) else none

/-- Modelled from the spec: the runtime type of a value — an immediate
integer is its own pseudo-type, a pointer's type is read from the
allocation header. -/
def runtimeType (st : Store) : Value → Option TypeId
  | .int _ => some .intTy
  | .ptr addr _ => (st.get? addr).map Payload.typeId

/-- Modelled from the spec: `value.downcast_ref::<T>().is_some()` — the
runtime type equals the target type. -/
def downcastOk (T : TypeId) (st : Store) (v : Value) : Bool :=
  decide (runtimeType st v = some T)

/-- `ValueTyped<'v, T>`: an untyped mutable-view handle paired with a
compile-time type witness. -/
structure ValueTyped (T : TypeId) where
  val : Value
deriving DecidableEq, Repr

/-- `FrozenValue`: a frozen handle; the same bit pattern as a mutable
handle (`to_value` is an identity reinterpretation). -/
structure FrozenValue where
  toValue : Value
deriving DecidableEq, Repr

/-- `FrozenValueTyped<'v, T>`: a frozen handle paired with a
compile-time type witness. -/
structure FrozenValueTyped (T : TypeId) where
  val : FrozenValue
deriving DecidableEq, Repr

/-- `ValueTyped::new`: checked construction — downcast, and wrap on
success. -/
def ValueTyped.new (T : TypeId) (st : Store) (v : Value) :
    Option (ValueTyped T) :=
  if downcastOk T st v then some ⟨v⟩ else none

/-- `FrozenValueTyped::new`: checked construction on a frozen handle. -/
def FrozenValueTyped.new (T : TypeId) (st : Store) (v : FrozenValue) :
    Option (FrozenValueTyped T) :=
  if downcastOk T st v.toValue then some ⟨v⟩ else none

/-- `ValueTyped::to_value`: erase the type, returning the untyped handle. -/
def ValueTyped.to_value {T : TypeId} (w : ValueTyped T) : Value := w.val

/-- `FrozenValueTyped::to_frozen_value`: erase the type. -/
def FrozenValueTyped.to_frozen_value {T : TypeId} (w : FrozenValueTyped T) :
    FrozenValue := w.val

/-- `FrozenValueTyped::to_value`: the underlying frozen handle viewed as
a mutable-view handle (identity on the bits). -/
def FrozenValueTyped.to_value {T : TypeId} (w : FrozenValueTyped T) : Value :=
  w.val.toValue

/-- `FrozenValueTyped::to_value_typed`: rewrap the frozen handle as a
mutable-view typed wrapper (unchecked, an identity on the handle). -/
def FrozenValueTyped.to_value_typed {T : TypeId} (w : FrozenValueTyped T) :
    ValueTyped T := ⟨w.val.toValue⟩

/-- The result of `as_ref`: either the in-place reinterpretation of an
immediate-integer word as a `PointerI32`, or a heap payload. -/
inductive Ref where
  | i32 : Int → Ref
  | payload : Payload → Ref
deriving DecidableEq, Repr

/-- `ValueTyped::as_ref`: for the immediate-integer pseudo-type,
reinterpret the tagged word in place; otherwise untag the non-integer
pointer and read the payload. -/
def ValueTyped.as_ref (T : TypeId) (st : Store) (w : ValueTyped T) :
    Option Ref :=
  if T = .intTy then
    some (.i32 (unpack_int_unchecked w.val.word))
  else
    (st.payloadAt (unpack_ptr_no_int_unchecked w.val.word)).map .payload

/-- `FrozenValueTyped::as_ref`: the source's three-branch untagging —
immediate integers in place; the string type through the non-integer
untagging; every other type through the narrower
neither-integer-nor-string untagging. -/
def FrozenValueTyped.as_ref (T : TypeId) (st : Store)
    (w : FrozenValueTyped T) : Option Ref :=
  if T = .intTy then
    some (.i32 (unpack_int_unchecked w.val.toValue.word))
  else if T = .strTy then
    (st.payloadAt (unpack_ptr_no_int_unchecked w.val.toValue.word)).map .payload
  else
    (st.payloadAt
      (unpack_ptr_no_int_no_str_unchecked w.val.toValue.word)).map .payload

/-- The uniform alternative for `FrozenValueTyped::as_ref` described by
the spec: a single non-integer untagging path for every non-immediate
case, string or not. -/
def FrozenValueTyped.as_ref_uniform (T : TypeId) (st : Store)
    (w : FrozenValueTyped T) : Option Ref :=
  if T = .intTy then
    some (.i32 (unpack_int_unchecked w.val.toValue.word))
  else
    (st.payloadAt (unpack_ptr_no_int_unchecked w.val.toValue.word)).map .payload

/-- `ValueTyped::<StarlarkStr>::as_str`: the string content behind a
string-typed wrapper. -/
def ValueTyped.as_str (st : Store) (w : ValueTyped .strTy) :
    Option ByteStr :=
  match w.as_ref .strTy st with
  | some (.payload (.str s)) => some s
  | _ => none

/-- `FrozenValueTyped::<StarlarkStr>::as_str`. -/
def FrozenValueTyped.as_str (st : Store) (w : FrozenValueTyped .strTy) :
    Option ByteStr :=
  match w.as_ref .strTy st with
  | some (.payload (.str s)) => some s
  | _ => none

/-- `Value::ptr_eq`: pointer identity — equality of the raw tagged
words. -/
def Value.ptr_eq (a b : Value) : Bool := a.word == b.word

/-- `PartialEq for ValueTyped<StarlarkStr>`: pointer-identity fast path,
then the `StarlarkStr` content comparison (modelled from the spec:
byte-for-byte equality of the contents). -/
def ValueTyped.str_eq (st : Store) (a b : ValueTyped .strTy) : Bool :=
  Value.ptr_eq a.to_value b.to_value ||
    (a.as_str st == b.as_str st)

/-- `PartialEq for FrozenValueTyped<StarlarkStr>`: convert both sides to
the mutable view and compare there. -/
def FrozenValueTyped.str_eq (st : Store) (a b : FrozenValueTyped .strTy) :
    Bool :=
  ValueTyped.str_eq st a.to_value_typed b.to_value_typed

/-- `PartialEq<ValueTyped<StarlarkStr>> for FrozenValueTyped<StarlarkStr>`:
convert the frozen side and compare. -/
def FrozenValueTyped.str_eq_value (st : Store)
    (a : FrozenValueTyped .strTy) (b : ValueTyped .strTy) : Bool :=
  ValueTyped.str_eq st a.to_value_typed b

/-- `PartialEq<FrozenValueTyped<StarlarkStr>> for ValueTyped<StarlarkStr>`:
convert the frozen side and compare. -/
def ValueTyped.str_eq_frozen (st : Store)
    (a : ValueTyped .strTy) (b : FrozenValueTyped .strTy) : Bool :=
  ValueTyped.str_eq st a b.to_value_typed

/-- Modelled from the spec: byte-lexicographic comparison of string
contents (`Ord for str`). -/
def byteLexCmp : ByteStr → ByteStr → Ordering
  | [], [] => .eq
  | [], _ :: _ => .lt
  | _ :: _, [] => .gt
  | a :: as_, b :: bs =>
    if a < b then .lt
    else if b < a then .gt
    else byteLexCmp as_ bs

/-- Modelled from the spec: a hash computed purely from the string
content (a simple polynomial hash stands in for the hasher). -/
def strHash (s : ByteStr) : Nat :=
  s.foldl (fun h b => (h * 31 + b) % 2 ^ 64) 5381

/-- `Ord for ValueTyped<StarlarkStr>`: compare the dereferenced string
contents. -/
def ValueTyped.str_cmp (st : Store) (a b : ValueTyped .strTy) :
    Option Ordering :=
  match a.as_str st, b.as_str st with
  | some x, some y => some (byteLexCmp x y)
  | _, _ => none

/-- `Ord for FrozenValueTyped<StarlarkStr>`. -/
def FrozenValueTyped.str_cmp (st : Store) (a b : FrozenValueTyped .strTy) :
    Option Ordering :=
  match a.as_str st, b.as_str st with
  | some x, some y => some (byteLexCmp x y)
  | _, _ => none

/-- `Hash for ValueTyped<StarlarkStr>`: hash the dereferenced content. -/
def ValueTyped.str_hash (st : Store) (a : ValueTyped .strTy) : Option Nat :=
  (a.as_str st).map strHash

/-- `Hash for FrozenValueTyped<StarlarkStr>`. -/
def FrozenValueTyped.str_hash (st : Store) (a : FrozenValueTyped .strTy) :
    Option Nat :=
  (a.as_str st).map strHash

/-- `Freeze for FrozenValueTyped`: an already-frozen wrapper freezes to
itself (`Ok(self)`); the freezer is unused and no heap is touched. -/
def FrozenValueTyped.freeze {T : TypeId} (w : FrozenValueTyped T)
    (freezer : Unit) : Except String (FrozenValueTyped T) :=
  .ok w

/-- Modelled from the spec: a tracer may rewrite a handle (relocation by
a moving collector); embedded as a function on handles. -/
abbrev Tracer := Value → Value

/-- `Trace for ValueTyped`: hand the single contained handle to the
tracer; the rewritten handle replaces the old one. -/
def ValueTyped.trace {T : TypeId} (tracer : Tracer) (w : ValueTyped T) :
    ValueTyped T :=
  ⟨tracer w.val⟩

/-- The debug-mode re-validation performed after tracing a mutable
wrapper: the rewritten handle must still downcast to `T`. -/
def ValueTyped.traceDebugCheck (T : TypeId) (st : Store) (tracer : Tracer)
    (w : ValueTyped T) : Bool :=
  downcastOk T st (tracer w.val)

/-- `Trace for FrozenValueTyped`: a no-op, the tracer is never consulted. -/
def FrozenValueTyped.trace {T : TypeId} (tracer : Tracer)
    (w : FrozenValueTyped T) : FrozenValueTyped T :=
  w

/-- Modelled from the spec: `Value::new_int` — an immediate tagged value
from an `i32`. -/
def Value.new_int (x : Int) : Value := .int x

/-- Modelled from the spec: `FrozenValue::new_int`. -/
def FrozenValue.new_int (x : Int) : FrozenValue := ⟨.int x⟩

/-- Modelled from the spec: `StarlarkBigInt::alloc_bigint` — allocate a
big-integer payload holding the exact value on the mutable heap and
return a (non-string) pointer to it. -/
def StarlarkBigInt.alloc_bigint (i : Int) (heap : Store) : Value × Store :=
  (Value.ptr heap.length false, heap ++ [.bigInt i])

/-- Modelled from the spec: `StarlarkBigInt::alloc_bigint_frozen`. -/
def StarlarkBigInt.alloc_bigint_frozen (i : Int) (heap : Store) :
    FrozenValue × Store :=
  (⟨Value.ptr heap.length false⟩, heap ++ [.bigInt i])

/-- `impl AllocValue for i64`: `i32::try_from` decides between the
immediate path and big-integer promotion. -/
def i64_alloc_value (i : Int) (heap : Store) : Value × Store :=
  if fitsI32 i then (Value.new_int i, heap)
  else StarlarkBigInt.alloc_bigint i heap

/-- `impl AllocFrozenValue for i64`. -/
def i64_alloc_frozen_value (i : Int) (heap : Store) : FrozenValue × Store :=
  if fitsI32 i then (FrozenValue.new_int i, heap)
  else StarlarkBigInt.alloc_bigint_frozen i heap

/-- `impl AllocValue for u64`: the value is non-negative; `i32::try_from`
succeeds exactly when it is below `2^31`. -/
def u64_alloc_value (n : Nat) (heap : Store) : Value × Store :=
  if n < 2 ^ 31 then (Value.new_int (n : Int), heap)
  else StarlarkBigInt.alloc_bigint (n : Int) heap

/-- `impl AllocFrozenValue for u64`. -/
def u64_alloc_frozen_value (n : Nat) (heap : Store) : FrozenValue × Store :=
  if n < 2 ^ 31 then (FrozenValue.new_int (n : Int), heap)
  else StarlarkBigInt.alloc_bigint_frozen (n : Int) heap

/-- Read an integer value back: an immediate yields its integer; a
pointer to a big-integer payload yields that integer. -/
def read_int (st : Store) : Value → Option Int
  | .int i => some i
  | .ptr addr _ =>
    match st.get? addr with
    | some (.bigInt i) => some i
    | _ => none

/-- Whether a value is an immediate (no heap object backs it). -/
def Value.isImmediate : Value → Bool
  | .int _ => true
  | .ptr _ _ => false

/-- Well-formedness of a handle against a store: an immediate holds an
in-range integer; a pointer addresses a live object and its string tag
bit agrees with the header (the tag is stamped from the header's
`is_str` at pointer creation). -/
def Value.wf (st : Store) : Value → Prop
  | .int i => fitsI32 i
  | .ptr addr isStr =>
    ∃ p, st.get? addr = some p ∧ (isStr = true ↔ p.typeId = .strTy)

/-! ## Helper lemmas -/

/-- Looking up the address of a freshly appended payload finds it. -/
lemma get?_append_singleton (l : List Payload) (p : Payload) :
    (l ++ [p]).get? l.length = some p := by
  induction l with
  | nil => rfl
  | cons a l ih => exact ih

/-- String equality of mutable-view wrappers is symmetric. -/
lemma str_eq_symm (st : Store) (a b : ValueTyped .strTy) :
    ValueTyped.str_eq st a b = ValueTyped.str_eq st b a := by
  apply Bool.eq_iff_iff.mpr
  simp only [ValueTyped.str_eq, ValueTyped.to_value, Value.ptr_eq,
    Bool.or_eq_true, beq_iff_eq]
  constructor
  · rintro (h | h)
    · exact Or.inl h.symm
    · exact Or.inr h.symm
  · rintro (h | h)
    · exact Or.inl h.symm
    · exact Or.inr h.symm

/-- The frozen string accessor agrees with the mutable-view one on the
same underlying handle (the string branch of the frozen `as_ref` is the
same untagging sequence as the mutable `as_ref`). -/
lemma frozen_as_str_eq (st : Store) (v : Value) :
    FrozenValueTyped.as_str st ⟨⟨v⟩⟩ = ValueTyped.as_str st ⟨v⟩ := rfl

/-! ## Claims -/

/-- C1: checked typed-wrapper construction (`ValueTyped::new` /
`FrozenValueTyped::new`) returns a present wrapper iff the value's
runtime type equals the target type, with immediate integers as their
own pseudo-type; otherwise absence. -/
theorem c1_construct_checked_iff (T : TypeId) (st : Store) (v : Value)
    (fv : FrozenValue) (i : Int) :
    ((ValueTyped.new T st v).isSome = true ↔ runtimeType st v = some T) ∧
    ((FrozenValueTyped.new T st fv).isSome = true ↔
      runtimeType st fv.toValue = some T) ∧
    ((ValueTyped.new T st (Value.int i)).isSome = true ↔ T = .intTy) := by
  refine ⟨?_, ?_, ?_⟩
  · unfold ValueTyped.new downcastOk
    split <;> simp_all
  · unfold FrozenValueTyped.new downcastOk
    split <;> simp_all
  · unfold ValueTyped.new downcastOk
    split <;> simp_all [runtimeType, eq_comm]

/-- C4: freezing an already-frozen typed wrapper is the identity: it
returns exactly the original wrapper, for every freezer. -/
theorem c4_freeze_identity (T : TypeId) (w : FrozenValueTyped T)
    (freezer : Unit) :
    w.freeze freezer = .ok w ∧
    ∀ freezer2 : Unit, w.freeze freezer2 = w.freeze freezer :=
  ⟨rfl, fun _ => rfl⟩

/-- C6: cross-heap string equality is defined by converting the frozen
wrapper to its mutable view (an identity on the handle) and applying
the same-heap rule, in both orientations, and the two orientations
agree with each other. -/
theorem c6_cross_heap_eq (st : Store) (f : FrozenValueTyped .strTy)
    (m : ValueTyped .strTy) :
    FrozenValueTyped.str_eq_value st f m =
        ValueTyped.str_eq st f.to_value_typed m ∧
    ValueTyped.str_eq_frozen st m f =
        ValueTyped.str_eq st m f.to_value_typed ∧
    f.to_value_typed.val = f.val.toValue ∧
    FrozenValueTyped.str_eq_value st f m = ValueTyped.str_eq_frozen st m f := by
  refine ⟨rfl, rfl, rfl, ?_⟩
  exact str_eq_symm st f.to_value_typed m

/-- C8: for `i64` and `u64`, the mutable-heap and frozen-heap promotion
take the same branch on every input, produce the same tagged value
(up to the identity frozen-to-mutable view), and grow their target
heaps identically. -/
theorem c8_heaps_mirror (i : Int) (n : Nat) (heap : Store) :
    (i64_alloc_value i heap).1 = (i64_alloc_frozen_value i heap).1.toValue ∧
    (i64_alloc_value i heap).2 = (i64_alloc_frozen_value i heap).2 ∧
    (u64_alloc_value n heap).1 = (u64_alloc_frozen_value n heap).1.toValue ∧
    (u64_alloc_value n heap).2 = (u64_alloc_frozen_value n heap).2 := by
  refine ⟨?_, ?_, ?_, ?_⟩
  · unfold i64_alloc_value i64_alloc_frozen_value
    split <;> rfl
  · unfold i64_alloc_value i64_alloc_frozen_value
    split <;> rfl
  · unfold u64_alloc_value u64_alloc_frozen_value
    split <;> rfl
  · unfold u64_alloc_value u64_alloc_frozen_value
    split <;> rfl

/-- Checked construction succeeds exactly when the downcast does, and
the wrapper then holds the given handle. -/
lemma vtNew_eq_some_iff (T : TypeId) (st : Store) (v : Value)
    (w : ValueTyped T) :
    ValueTyped.new T st v = some w ↔
      downcastOk T st v = true ∧ w = ⟨v⟩ := by
  unfold ValueTyped.new
  split
  next hd =>
    constructor
    · intro hw
      injection hw with hw
      exact ⟨hd, hw.symm⟩
    · rintro ⟨-, rfl⟩
      rfl
  next hd =>
    constructor
    · intro hw
      exact Option.noConfusion hw
    · rintro ⟨hd2, -⟩
      exact absurd hd2 hd

/-- Frozen variant of `vtNew_eq_some_iff`. -/
lemma fvtNew_eq_some_iff (T : TypeId) (st : Store) (fv : FrozenValue)
    (fw : FrozenValueTyped T) :
    FrozenValueTyped.new T st fv = some fw ↔
      downcastOk T st fv.toValue = true ∧ fw = ⟨fv⟩ := by
  unfold FrozenValueTyped.new
  split
  next hd =>
    constructor
    · intro hw
      injection hw with hw
      exact ⟨hd, hw.symm⟩
    · rintro ⟨-, rfl⟩
      rfl
  next hd =>
    constructor
    · intro hw
      exact Option.noConfusion hw
    · rintro ⟨hd2, -⟩
      exact absurd hd2 hd

/-- C10: erasing a checked wrapper returns the original handle
unchanged, re-construction on the erased handle succeeds with the same
wrapper, and `to_frozen_value` returns the handle stored at
construction. -/
theorem c10_erase_reconstruct (T : TypeId) (st : Store) (v : Value)
    (w : ValueTyped T) (fv : FrozenValue) (fw : FrozenValueTyped T)
    (h : ValueTyped.new T st v = some w)
    (hf : FrozenValueTyped.new T st fv = some fw) :
    w.to_value = v ∧
    ValueTyped.new T st w.to_value = some w ∧
    fw.to_frozen_value = fv := by
  rw [vtNew_eq_some_iff] at h
  rw [fvtNew_eq_some_iff] at hf
  obtain ⟨hd, rfl⟩ := h
  obtain ⟨hdf, rfl⟩ := hf
  refine ⟨rfl, ?_, rfl⟩
  rw [vtNew_eq_some_iff]
  exact ⟨hd, rfl⟩

/-- Witness for C10 at a concrete store and string value. -/
theorem c10_erase_reconstruct_witness :
    ValueTyped.new .strTy [Payload.str [97]] (Value.ptr 0 true) =
        some ⟨Value.ptr 0 true⟩ ∧
    FrozenValueTyped.new .strTy [Payload.str [97]] ⟨Value.ptr 0 true⟩ =
        some ⟨⟨Value.ptr 0 true⟩⟩ ∧
    ((⟨Value.ptr 0 true⟩ : ValueTyped .strTy).to_value = Value.ptr 0 true ∧
      ValueTyped.new .strTy [Payload.str [97]]
          ((⟨Value.ptr 0 true⟩ : ValueTyped .strTy).to_value) =
        some ⟨Value.ptr 0 true⟩ ∧
      (⟨⟨Value.ptr 0 true⟩⟩ : FrozenValueTyped .strTy).to_frozen_value =
        ⟨Value.ptr 0 true⟩) :=
  ⟨by decide, by decide,
    c10_erase_reconstruct .strTy [Payload.str [97]] (Value.ptr 0 true)
      ⟨Value.ptr 0 true⟩ ⟨Value.ptr 0 true⟩ ⟨⟨Value.ptr 0 true⟩⟩
      (by decide) (by decide)⟩

/-- The `i64` mutable-heap conversion on the immediate branch. -/
lemma i64_alloc_value_fits (i : Int) (heap : Store) (h : fitsI32 i) :
    i64_alloc_value i heap = (Value.int i, heap) := by
  unfold i64_alloc_value Value.new_int
  rw [if_pos h]

/-- The `i64` mutable-heap conversion on the big-integer branch. -/
lemma i64_alloc_value_big (i : Int) (heap : Store) (h : ¬ fitsI32 i) :
    i64_alloc_value i heap =
      (Value.ptr heap.length false, heap ++ [Payload.bigInt i]) := by
  unfold i64_alloc_value StarlarkBigInt.alloc_bigint
  rw [if_neg h]

/-- The `i64` frozen-heap conversion on the immediate branch. -/
lemma i64_alloc_frozen_fits (i : Int) (heap : Store) (h : fitsI32 i) :
    i64_alloc_frozen_value i heap = (⟨Value.int i⟩, heap) := by
  unfold i64_alloc_frozen_value FrozenValue.new_int
  rw [if_pos h]

/-- The `i64` frozen-heap conversion on the big-integer branch. -/
lemma i64_alloc_frozen_big (i : Int) (heap : Store) (h : ¬ fitsI32 i) :
    i64_alloc_frozen_value i heap =
      (⟨Value.ptr heap.length false⟩, heap ++ [Payload.bigInt i]) := by
  unfold i64_alloc_frozen_value StarlarkBigInt.alloc_bigint_frozen
  rw [if_neg h]

/-- The `u64` mutable-heap conversion on the immediate branch. -/
lemma u64_alloc_value_fits (n : Nat) (heap : Store) (h : n < 2 ^ 31) :
    u64_alloc_value n heap = (Value.int (n : Int), heap) := by
  unfold u64_alloc_value Value.new_int
  rw [if_pos h]

/-- The `u64` mutable-heap conversion on the big-integer branch. -/
lemma u64_alloc_value_big (n : Nat) (heap : Store) (h : ¬ n < 2 ^ 31) :
    u64_alloc_value n heap =
      (Value.ptr heap.length false, heap ++ [Payload.bigInt (n : Int)]) := by
  unfold u64_alloc_value StarlarkBigInt.alloc_bigint
  rw [if_neg h]

/-- The `u64` frozen-heap conversion on the immediate branch. -/
lemma u64_alloc_frozen_fits (n : Nat) (heap : Store) (h : n < 2 ^ 31) :
    u64_alloc_frozen_value n heap = (⟨Value.int (n : Int)⟩, heap) := by
  unfold u64_alloc_frozen_value FrozenValue.new_int
  rw [if_pos h]

/-- The `u64` frozen-heap conversion on the big-integer branch. -/
lemma u64_alloc_frozen_big (n : Nat) (heap : Store) (h : ¬ n < 2 ^ 31) :
    u64_alloc_frozen_value n heap =
      (⟨Value.ptr heap.length false⟩, heap ++ [Payload.bigInt (n : Int)]) := by
  unfold u64_alloc_frozen_value StarlarkBigInt.alloc_bigint_frozen
  rw [if_neg h]

/-- Reading back a freshly allocated big-integer payload yields the
allocated integer. -/
lemma read_int_append_bigint (heap : Store) (i : Int) :
    read_int (heap ++ [Payload.bigInt i]) (Value.ptr heap.length false) =
      some i := by
  show (match (heap ++ [Payload.bigInt i]).get? heap.length with
    | some (.bigInt j) => some j
    | _ => none) = some i
  rw [get?_append_singleton]

/-- C2: converting a native `i64` (or `u64`) to a runtime value takes
the immediate path with no allocation when the value fits in `i32`, and
otherwise allocates exactly one big-integer object; in both cases, and
on both the mutable and the frozen heap, reading the result back yields
exactly the original integer. -/
theorem c2_int_promotion_exact (i : Int) (n : Nat) (heap fheap : Store)
    (hi : -(2 ^ 63) ≤ i ∧ i < 2 ^ 63) (hn : n < 2 ^ 64) :
    (read_int (i64_alloc_value i heap).2 (i64_alloc_value i heap).1 =
      some i) ∧
    (read_int (i64_alloc_frozen_value i fheap).2
        (i64_alloc_frozen_value i fheap).1.toValue = some i) ∧
    (fitsI32 i →
      (i64_alloc_value i heap).2 = heap ∧
      (i64_alloc_value i heap).1.isImmediate = true ∧
      (i64_alloc_frozen_value i fheap).2 = fheap ∧
      (i64_alloc_frozen_value i fheap).1.toValue.isImmediate = true) ∧
    (¬ fitsI32 i →
      ((i64_alloc_value i heap).2).length = heap.length + 1 ∧
      (i64_alloc_value i heap).1.isImmediate = false ∧
      ((i64_alloc_frozen_value i fheap).2).length = fheap.length + 1 ∧
      (i64_alloc_frozen_value i fheap).1.toValue.isImmediate = false) ∧
    (read_int (u64_alloc_value n heap).2 (u64_alloc_value n heap).1 =
      some (n : Int)) ∧
    (read_int (u64_alloc_frozen_value n fheap).2
        (u64_alloc_frozen_value n fheap).1.toValue = some (n : Int)) ∧
    (n < 2 ^ 31 →
      (u64_alloc_value n heap).2 = heap ∧
      (u64_alloc_value n heap).1.isImmediate = true ∧
      (u64_alloc_frozen_value n fheap).2 = fheap ∧
      (u64_alloc_frozen_value n fheap).1.toValue.isImmediate = true) ∧
    (¬ n < 2 ^ 31 →
      ((u64_alloc_value n heap).2).length = heap.length + 1 ∧
      (u64_alloc_value n heap).1.isImmediate = false ∧
      ((u64_alloc_frozen_value n fheap).2).length = fheap.length + 1 ∧
      (u64_alloc_frozen_value n fheap).1.toValue.isImmediate = false) := by
  refine ⟨?_, ?_, ?_, ?_, ?_, ?_, ?_, ?_⟩
  · by_cases h : fitsI32 i
    · rw [i64_alloc_value_fits i heap h]
      rfl
    · rw [i64_alloc_value_big i heap h]
      exact read_int_append_bigint heap i
  · by_cases h : fitsI32 i
    · rw [i64_alloc_frozen_fits i fheap h]
      rfl
    · rw [i64_alloc_frozen_big i fheap h]
      exact read_int_append_bigint fheap i
  · intro h
    rw [i64_alloc_value_fits i heap h, i64_alloc_frozen_fits i fheap h]
    exact ⟨rfl, rfl, rfl, rfl⟩
  · intro h
    rw [i64_alloc_value_big i heap h, i64_alloc_frozen_big i fheap h]
    refine ⟨?_, rfl, ?_, rfl⟩ <;> simp
  · by_cases h : n < 2 ^ 31
    · rw [u64_alloc_value_fits n heap h]
      rfl
    · rw [u64_alloc_value_big n heap h]
      exact read_int_append_bigint heap (n : Int)
  · by_cases h : n < 2 ^ 31
    · rw [u64_alloc_frozen_fits n fheap h]
      rfl
    · rw [u64_alloc_frozen_big n fheap h]
      exact read_int_append_bigint fheap (n : Int)
  · intro h
    rw [u64_alloc_value_fits n heap h, u64_alloc_frozen_fits n fheap h]
    exact ⟨rfl, rfl, rfl, rfl⟩
  · intro h
    rw [u64_alloc_value_big n heap h, u64_alloc_frozen_big n fheap h]
    refine ⟨?_, rfl, ?_, rfl⟩ <;> simp

/-- Witness for C2: the spec's example value `5_000_000_000` (outside
the immediate range) together with a small `u64` value, on empty heaps. -/
theorem c2_int_promotion_exact_witness :
    (-(2 ^ 63) ≤ (5000000000 : Int) ∧ (5000000000 : Int) < 2 ^ 63) ∧
    (7 : Nat) < 2 ^ 64 ∧
    ((read_int (i64_alloc_value 5000000000 ([] : Store)).2
        (i64_alloc_value 5000000000 ([] : Store)).1 = some 5000000000) ∧
      (read_int (i64_alloc_frozen_value 5000000000 ([] : Store)).2
        (i64_alloc_frozen_value 5000000000 ([] : Store)).1.toValue =
          some 5000000000) ∧
      (fitsI32 5000000000 →
        (i64_alloc_value 5000000000 ([] : Store)).2 = ([] : Store) ∧
        (i64_alloc_value 5000000000 ([] : Store)).1.isImmediate = true ∧
        (i64_alloc_frozen_value 5000000000 ([] : Store)).2 = ([] : Store) ∧
        (i64_alloc_frozen_value 5000000000
            ([] : Store)).1.toValue.isImmediate = true) ∧
      (¬ fitsI32 (5000000000 : Int) →
        ((i64_alloc_value 5000000000 ([] : Store)).2).length =
          ([] : Store).length + 1 ∧
        (i64_alloc_value 5000000000 ([] : Store)).1.isImmediate = false ∧
        ((i64_alloc_frozen_value 5000000000 ([] : Store)).2).length =
          ([] : Store).length + 1 ∧
        (i64_alloc_frozen_value 5000000000
            ([] : Store)).1.toValue.isImmediate = false) ∧
      (read_int (u64_alloc_value 7 ([] : Store)).2
        (u64_alloc_value 7 ([] : Store)).1 = some ((7 : Nat) : Int)) ∧
      (read_int (u64_alloc_frozen_value 7 ([] : Store)).2
        (u64_alloc_frozen_value 7 ([] : Store)).1.toValue =
          some ((7 : Nat) : Int)) ∧
      ((7 : Nat) < 2 ^ 31 →
        (u64_alloc_value 7 ([] : Store)).2 = ([] : Store) ∧
        (u64_alloc_value 7 ([] : Store)).1.isImmediate = true ∧
        (u64_alloc_frozen_value 7 ([] : Store)).2 = ([] : Store) ∧
        (u64_alloc_frozen_value 7 ([] : Store)).1.toValue.isImmediate =
          true) ∧
      (¬ (7 : Nat) < 2 ^ 31 →
        ((u64_alloc_value 7 ([] : Store)).2).length =
          ([] : Store).length + 1 ∧
        (u64_alloc_value 7 ([] : Store)).1.isImmediate = false ∧
        ((u64_alloc_frozen_value 7 ([] : Store)).2).length =
          ([] : Store).length + 1 ∧
        (u64_alloc_frozen_value 7 ([] : Store)).1.toValue.isImmediate =
          false)) :=
  ⟨by decide, by norm_num,
    c2_int_promotion_exact 5000000000 7 ([] : Store) ([] : Store)
      (by decide) (by norm_num)⟩

/-- C3: two string typed wrappers (mutable or frozen) are equal exactly
when they reference the identical allocation or their contents are
byte-for-byte equal. -/
theorem c3_str_eq_iff (st : Store) (pa pb : Nat) (sa sb : ByteStr)
    (hsa : ValueTyped.as_str st ⟨Value.ptr pa true⟩ = some sa)
    (hsb : ValueTyped.as_str st ⟨Value.ptr pb true⟩ = some sb) :
    (ValueTyped.str_eq st ⟨Value.ptr pa true⟩ ⟨Value.ptr pb true⟩ = true ↔
      (pa = pb ∨ sa = sb)) ∧
    (FrozenValueTyped.str_eq st ⟨⟨Value.ptr pa true⟩⟩
        ⟨⟨Value.ptr pb true⟩⟩ = true ↔
      (pa = pb ∨ sa = sb)) := by
  have h1 : ValueTyped.str_eq st ⟨Value.ptr pa true⟩ ⟨Value.ptr pb true⟩ =
      true ↔ (pa = pb ∨ sa = sb) := by
    unfold ValueTyped.str_eq Value.ptr_eq ValueTyped.to_value
    rw [hsa, hsb]
    simp only [Value.word, if_true, Bool.or_eq_true, beq_iff_eq,
      Option.some.injEq]
    constructor
    · rintro (h | h)
      · left; omega
      · right; exact h
    · rintro (h | h)
      · left; omega
      · right; exact h
  exact ⟨h1, h1⟩

/-- Witness for C3: two separately allocated, byte-identical strings
compare equal. -/
theorem c3_str_eq_iff_witness :
    ValueTyped.as_str [Payload.str [120], Payload.str [120]]
        ⟨Value.ptr 0 true⟩ = some [120] ∧
    ValueTyped.as_str [Payload.str [120], Payload.str [120]]
        ⟨Value.ptr 1 true⟩ = some [120] ∧
    ((ValueTyped.str_eq [Payload.str [120], Payload.str [120]]
          ⟨Value.ptr 0 true⟩ ⟨Value.ptr 1 true⟩ = true ↔
        ((0 : Nat) = 1 ∨ ([120] : ByteStr) = [120])) ∧
      (FrozenValueTyped.str_eq [Payload.str [120], Payload.str [120]]
          ⟨⟨Value.ptr 0 true⟩⟩ ⟨⟨Value.ptr 1 true⟩⟩ = true ↔
        ((0 : Nat) = 1 ∨ ([120] : ByteStr) = [120]))) :=
  ⟨by decide, by decide,
    c3_str_eq_iff [Payload.str [120], Payload.str [120]] 0 1 [120] [120]
      (by decide) (by decide)⟩

/-- C5: ordering of string wrappers is the byte-lexicographic order of
their contents and hashing is a function of the contents alone; both
are independent of addresses and allocation order, for the mutable and
the frozen wrapper variants. -/
theorem c5_ord_hash_content_only (st st2 : Store) (va vb va2 vb2 : Value)
    (sa sb : ByteStr)
    (ha : ValueTyped.as_str st ⟨va⟩ = some sa)
    (hb : ValueTyped.as_str st ⟨vb⟩ = some sb)
    (ha2 : ValueTyped.as_str st2 ⟨va2⟩ = some sa)
    (hb2 : ValueTyped.as_str st2 ⟨vb2⟩ = some sb) :
    ValueTyped.str_cmp st ⟨va⟩ ⟨vb⟩ = some (byteLexCmp sa sb) ∧
    ValueTyped.str_cmp st ⟨va⟩ ⟨vb⟩ = ValueTyped.str_cmp st2 ⟨va2⟩ ⟨vb2⟩ ∧
    ValueTyped.str_hash st ⟨va⟩ = some (strHash sa) ∧
    ValueTyped.str_hash st ⟨va⟩ = ValueTyped.str_hash st2 ⟨va2⟩ ∧
    FrozenValueTyped.str_cmp st ⟨⟨va⟩⟩ ⟨⟨vb⟩⟩ = some (byteLexCmp sa sb) ∧
    FrozenValueTyped.str_hash st ⟨⟨va⟩⟩ = some (strHash sa) := by
  unfold ValueTyped.str_cmp ValueTyped.str_hash FrozenValueTyped.str_cmp
    FrozenValueTyped.str_hash
  rw [frozen_as_str_eq st va, frozen_as_str_eq st vb, ha, hb, ha2, hb2]
  exact ⟨rfl, rfl, rfl, rfl, rfl, rfl⟩

/-- Witness for C5: `"a"` orders before `"b"` in both allocation
orders. -/
theorem c5_ord_hash_content_only_witness :
    ValueTyped.as_str [Payload.str [97], Payload.str [98]]
        ⟨Value.ptr 0 true⟩ = some [97] ∧
    ValueTyped.as_str [Payload.str [97], Payload.str [98]]
        ⟨Value.ptr 1 true⟩ = some [98] ∧
    ValueTyped.as_str [Payload.str [98], Payload.str [97]]
        ⟨Value.ptr 1 true⟩ = some [97] ∧
    ValueTyped.as_str [Payload.str [98], Payload.str [97]]
        ⟨Value.ptr 0 true⟩ = some [98] ∧
    (ValueTyped.str_cmp [Payload.str [97], Payload.str [98]]
        ⟨Value.ptr 0 true⟩ ⟨Value.ptr 1 true⟩ =
          some (byteLexCmp [97] [98]) ∧
      ValueTyped.str_cmp [Payload.str [97], Payload.str [98]]
          ⟨Value.ptr 0 true⟩ ⟨Value.ptr 1 true⟩ =
        ValueTyped.str_cmp [Payload.str [98], Payload.str [97]]
          ⟨Value.ptr 1 true⟩ ⟨Value.ptr 0 true⟩ ∧
      ValueTyped.str_hash [Payload.str [97], Payload.str [98]]
          ⟨Value.ptr 0 true⟩ = some (strHash [97]) ∧
      ValueTyped.str_hash [Payload.str [97], Payload.str [98]]
          ⟨Value.ptr 0 true⟩ =
        ValueTyped.str_hash [Payload.str [98], Payload.str [97]]
          ⟨Value.ptr 1 true⟩ ∧
      FrozenValueTyped.str_cmp [Payload.str [97], Payload.str [98]]
          ⟨⟨Value.ptr 0 true⟩⟩ ⟨⟨Value.ptr 1 true⟩⟩ =
        some (byteLexCmp [97] [98]) ∧
      FrozenValueTyped.str_hash [Payload.str [97], Payload.str [98]]
          ⟨⟨Value.ptr 0 true⟩⟩ = some (strHash [97])) :=
  ⟨by decide, by decide, by decide, by decide,
    c5_ord_hash_content_only
      [Payload.str [97], Payload.str [98]]
      [Payload.str [98], Payload.str [97]]
      (Value.ptr 0 true) (Value.ptr 1 true)
      (Value.ptr 1 true) (Value.ptr 0 true)
      [97] [98] (by decide) (by decide) (by decide) (by decide)⟩

/-- C7: under the typed-wrapper invariant (the handle's runtime type is
`T` and the string tag bit agrees with the header), the three-branch
`FrozenValueTyped::as_ref` produces exactly the result of the uniform
single non-immediate untagging path. -/
theorem c7_frozen_as_ref_uniform (T : TypeId) (st : Store)
    (w : FrozenValueTyped T)
    (hwf : Value.wf st w.val.toValue)
    (hty : runtimeType st w.val.toValue = some T) :
    FrozenValueTyped.as_ref T st w =
      FrozenValueTyped.as_ref_uniform T st w := by
  unfold FrozenValueTyped.as_ref FrozenValueTyped.as_ref_uniform
  by_cases hint : T = .intTy
  · rw [if_pos hint, if_pos hint]
  · rw [if_neg hint, if_neg hint]
    by_cases hstr : T = .strTy
    · rw [if_pos hstr]
    · rw [if_neg hstr]
      cases hv : w.val.toValue with
      | int i =>
        rw [hv] at hty
        simp only [runtimeType] at hty
        injection hty with hty
        exact absurd hty.symm hint
      | ptr addr isStr =>
        rw [hv] at hwf hty
        obtain ⟨p, hp, hiff⟩ := hwf
        simp only [runtimeType, hp, Option.map_some'] at hty
        injection hty with hty
        cases isStr with
        | true =>
          exact absurd (hty ▸ hiff.mp rfl) hstr
        | false =>
          congr 1
          unfold unpack_ptr_no_int_unchecked unpack_ptr_no_int_no_str_unchecked
            Value.word
          simp

/-- Witness for C7: a frozen non-integer, non-string object. -/
theorem c7_frozen_as_ref_uniform_witness :
    Value.wf [Payload.other 7 0]
      ((⟨⟨Value.ptr 0 false⟩⟩ : FrozenValueTyped (.otherTy 7)).val.toValue) ∧
    runtimeType [Payload.other 7 0]
      ((⟨⟨Value.ptr 0 false⟩⟩ :
        FrozenValueTyped (.otherTy 7)).val.toValue) = some (.otherTy 7) ∧
    FrozenValueTyped.as_ref (.otherTy 7) [Payload.other 7 0]
        ⟨⟨Value.ptr 0 false⟩⟩ =
      FrozenValueTyped.as_ref_uniform (.otherTy 7) [Payload.other 7 0]
        ⟨⟨Value.ptr 0 false⟩⟩ :=
  ⟨⟨Payload.other 7 0, rfl, by simp [Payload.typeId]⟩, by decide,
    c7_frozen_as_ref_uniform (.otherTy 7) [Payload.other 7 0]
      ⟨⟨Value.ptr 0 false⟩⟩
      ⟨Payload.other 7 0, rfl, by simp [Payload.typeId]⟩ (by decide)⟩

/-- C9: tracing a mutable wrapper hands exactly its contained handle to
the tracer (the wrapper then holds the tracer's result), the debug-mode
re-validation succeeds whenever the tracer preserved the logical type,
and tracing a frozen wrapper is a no-op independent of the tracer. -/
theorem c9_trace_hooks (T : TypeId) (st : Store) (tracer : Tracer)
    (w : ValueTyped T) (fw : FrozenValueTyped T)
    (h : runtimeType st (tracer w.val) = some T) :
    (ValueTyped.trace tracer w).val = tracer w.val ∧
    ValueTyped.traceDebugCheck T st tracer w = true ∧
    FrozenValueTyped.trace tracer fw = fw ∧
    (∀ tracer2 : Tracer,
      FrozenValueTyped.trace tracer2 fw = FrozenValueTyped.trace tracer fw) := by
  refine ⟨rfl, ?_, rfl, fun _ => rfl⟩
  unfold ValueTyped.traceDebugCheck downcastOk
  simp [h]

/-- Witness for C9: the identity tracer on an immediate integer. -/
theorem c9_trace_hooks_witness :
    runtimeType ([] : Store)
      ((fun v => v) ((⟨Value.int 0⟩ : ValueTyped .intTy).val)) =
        some .intTy ∧
    ((ValueTyped.trace (fun v => v) (⟨Value.int 0⟩ : ValueTyped .intTy)).val =
        (fun v => v) ((⟨Value.int 0⟩ : ValueTyped .intTy).val) ∧
      ValueTyped.traceDebugCheck .intTy ([] : Store) (fun v => v)
        ⟨Value.int 0⟩ = true ∧
      FrozenValueTyped.trace (fun v => v)
        (⟨⟨Value.int 0⟩⟩ : FrozenValueTyped .intTy) = ⟨⟨Value.int 0⟩⟩ ∧
      (∀ tracer2 : Tracer,
        FrozenValueTyped.trace tracer2
            (⟨⟨Value.int 0⟩⟩ : FrozenValueTyped .intTy) =
          FrozenValueTyped.trace (fun v => v) ⟨⟨Value.int 0⟩⟩)) :=
  ⟨by decide,
    c9_trace_hooks .intTy ([] : Store) (fun v => v) ⟨Value.int 0⟩
      ⟨⟨Value.int 0⟩⟩ (by decide)⟩

end Starlark
